import Mathlib

/-!
Shallow embedding of the resilience layer of the `autotrader` twitter-service:
`health_monitor.py`, `account_pool.py` and `unified_twitter_client.py`.

Modelling conventions:
* timestamps are rationals measured in minutes (`datetime.now()` becomes an
  explicit `now : ℚ` argument; `timedelta(minutes=k)` becomes subtraction of `k`);
* Python floats become `ℚ` (all arithmetic in these files is exact on the
  values that occur: counters, ratios of counters, fixed thresholds);
* exceptions become `Except`; a raised Python exception is the pair of its
  class name (`type(e).__name__`) and its message;
* alert callbacks become explicit alert lists returned by each operation;
* `asyncio.create_task(...rotate_account...)` only schedules a task, which
  cannot run before the next event-loop yield point; the embedding counts
  scheduled rotations in `rotations_scheduled` instead of running them.
-/

namespace AutoTrader

/-! ## health_monitor.py -/

inductive HealthStatus where
  | healthy
  | degraded
  | failing
  | failed
deriving DecidableEq, Repr

/-- Embeds `HealthStatus.value` — the `.value` string of the Python enum members. -/
def HealthStatus.value : HealthStatus → String
  | .healthy => "healthy"
  | .degraded => "degraded"
  | .failing => "failing"
  | .failed => "failed"

structure HealthMetrics where
  total_requests : Nat := 0
  successful_requests : Nat := 0
  failed_requests : Nat := 0
  consecutive_failures : Nat := 0
  last_success_time : Option ℚ := none
  last_failure_time : Option ℚ := none
  failure_reasons : List String := []
  average_response_time : ℚ := 0
  response_times : List ℚ := []
deriving DecidableEq, Repr

inductive EventType where
  | success
  | failure
deriving DecidableEq, Repr

structure HealthEvent where
  timestamp : ℚ
  type : EventType
  response_time : ℚ := 0
  error_type : Option String := none
  error_message : Option String := none
deriving DecidableEq, Repr

structure TwitterHealthMonitor where
  metrics : HealthMetrics
  status : HealthStatus
  recent_events : List HealthEvent
deriving DecidableEq, Repr

/-- Fresh monitor, as built by `TwitterHealthMonitor.__init__`. -/
def TwitterHealthMonitor.init : TwitterHealthMonitor :=
  { metrics := {}, status := .healthy, recent_events := [] }

/-- Threshold fields set in `TwitterHealthMonitor.__init__`. -/
def max_consecutive_failures : Nat := 5

def min_success_rate : ℚ := 7 / 10

def degraded_threshold : ℚ := 17 / 20

def time_window_minutes : ℚ := 15

/-- Alerts pushed through `_trigger_alert` by the health monitor. -/
inductive HealthAlert where
  | critical_failure (error_type error_message : String)
  | status_change (old new : HealthStatus)
deriving DecidableEq, Repr

/-- Character-list version of `a.isPrefixOf b` used by the substring test. -/
def leadMatch : List Char → List Char → Bool
  | [], _ => true
  | _ :: _, [] => false
  | a :: as, b :: bs => a == b && leadMatch as bs

/-- Python substring containment (`in` on strings) on character lists: the
needle is a prefix of some suffix of the haystack. -/
def hasSub : List Char → List Char → Bool
  | [], needle => leadMatch needle []
  | c :: t, needle => leadMatch needle (c :: t) || hasSub t needle

/-- Python's substring containment `kw in s`. -/
def containsKeyword (s kw : String) : Bool :=
  hasSub s.data kw.data

/-- The `critical_keywords` list of `_is_critical_failure` (verbatim, the
multi-word keywords contain spaces in the source). -/
def critical_keywords : List String :=
  ["suspended", "banned", "locked", "account not found", "authorization failed",
   "invalid credentials", "forbidden", "403"]

/-- Embeds `TwitterHealthMonitor._is_critical_failure`. -/
def is_critical_failure (error_type error_message : String) : Bool :=
  let error_lower := (error_type ++ " " ++ error_message).toLower
  critical_keywords.any (fun kw => containsKeyword error_lower kw)

/-- Embeds `TwitterHealthMonitor._record_event`: append the event, then drop events at
or before `now - time_window_minutes`. -/
def TwitterHealthMonitor.recordEvent (m : TwitterHealthMonitor) (now : ℚ)
    (etype : EventType) (rt : ℚ) (err_t err_m : Option String) :
    TwitterHealthMonitor :=
  let cutoff := now - time_window_minutes
  let event : HealthEvent :=
    { timestamp := now, type := etype, response_time := rt,
      error_type := err_t, error_message := err_m }
  let pruned := (m.recent_events ++ [event]).filter (fun e => cutoff < e.timestamp)
  { m with recent_events := pruned }

/-- The windowed success rate computed at the top of `_update_status`:
`successes / len(recent_events)`, `1.0` when the window is empty. -/
def windowSuccessRate (events : List HealthEvent) : ℚ :=
  if 0 < events.length then
    ((events.filter (fun e => e.type == EventType.success)).length : ℚ) /
      (events.length : ℚ)
  else 1

/-- The if/elif chain of `_update_status` that determines the new status in
the non-`FAILED` case. -/
def nextStatus (m : TwitterHealthMonitor) : HealthStatus :=
  let window_success_rate := windowSuccessRate m.recent_events
  if max_consecutive_failures ≤ m.metrics.consecutive_failures then
    HealthStatus.failing
  else if window_success_rate < min_success_rate then
    HealthStatus.failing
  else if window_success_rate < degraded_threshold then
    HealthStatus.degraded
  else
    HealthStatus.healthy

/-- Embeds `TwitterHealthMonitor._update_status`, returning the updated monitor and
the alerts pushed by `_trigger_alert`: early return while `FAILED`, otherwise
apply `nextStatus` and alert iff the status changed. -/
def updateStatus (m : TwitterHealthMonitor) : TwitterHealthMonitor × List HealthAlert :=
  if m.status = .failed then
    (m, [])
  else
    let newStatus := nextStatus m
    ({ m with status := newStatus },
     if newStatus ≠ m.status then [.status_change m.status newStatus]
     else [])

/-- Drop the front element (`pop(0)`) after an append once the length bound is exceeded. -/
def trimFront {α : Type} (bound : Nat) (l : List α) : List α :=
  if bound < l.length then l.drop 1 else l

/-- Embeds `TwitterHealthMonitor.record_success`. -/
def record_success (m : TwitterHealthMonitor) (now response_time : ℚ) :
    TwitterHealthMonitor × List HealthAlert :=
  let response_times := trimFront 100 (m.metrics.response_times ++ [response_time])
  let metrics :=
    { m.metrics with
        total_requests := m.metrics.total_requests + 1,
        successful_requests := m.metrics.successful_requests + 1,
        consecutive_failures := 0,
        last_success_time := some now,
        response_times := response_times,
        average_response_time := response_times.sum / (response_times.length : ℚ) }
  let m1 := { m with metrics := metrics }
  let m2 := m1.recordEvent now .success response_time none none
  updateStatus m2

/-- Embeds `TwitterHealthMonitor.record_failure`.  On a critical failure the status is
forced to `FAILED` and a `critical_failure` alert is pushed before
`_update_status` runs (which then returns early). -/
def record_failure (m : TwitterHealthMonitor) (now : ℚ)
    (error_type error_message : String) : TwitterHealthMonitor × List HealthAlert :=
  let metrics :=
    { m.metrics with
        total_requests := m.metrics.total_requests + 1,
        failed_requests := m.metrics.failed_requests + 1,
        consecutive_failures := m.metrics.consecutive_failures + 1,
        last_failure_time := some now,
        failure_reasons :=
          trimFront 50 (m.metrics.failure_reasons ++ [error_type ++ ": " ++ error_message]) }
  let m1 := { m with metrics := metrics }
  let m2 := m1.recordEvent now .failure 0 (some error_type) (some error_message)
  if is_critical_failure error_type error_message then
    let m3 := { m2 with status := HealthStatus.failed }
    let u := updateStatus m3
    (u.1, .critical_failure error_type error_message :: u.2)
  else
    updateStatus m2

/-- Embeds `TwitterHealthMonitor.should_failover`. -/
def should_failover (m : TwitterHealthMonitor) : Bool :=
  m.status == HealthStatus.failing || m.status == HealthStatus.failed

/-- Embeds `TwitterHealthMonitor.reset`. -/
def TwitterHealthMonitor.reset (_m : TwitterHealthMonitor) : TwitterHealthMonitor :=
  TwitterHealthMonitor.init

/-- A call to `record_success` / `record_failure` (for sequences of calls). -/
inductive MonitorOp where
  | success (now response_time : ℚ)
  | failure (now : ℚ) (error_type error_message : String)

def applyOp (m : TwitterHealthMonitor) : MonitorOp → TwitterHealthMonitor
  | .success now rt => (record_success m now rt).1
  | .failure now et em => (record_failure m now et em).1

def applyOps (ops : List MonitorOp) (m : TwitterHealthMonitor) : TwitterHealthMonitor :=
  ops.foldl applyOp m

/-! ## account_pool.py -/

/-- Embeds `TwitterAccount`; the twikit `Client` object is abstracted to an opaque
numeric handle (`none` until a successful login sets it). -/
structure TwitterAccount where
  username : String
  email : String
  password : String
  client : Option Nat := none
  is_active : Bool := false
  is_banned : Bool := false
  last_used : Option ℚ := none
  total_requests : Nat := 0
  failed_requests : Nat := 0
  created_at : ℚ := 0
deriving DecidableEq, Repr

/-- Embeds `TwitterAccount.success_rate`. -/
def TwitterAccount.success_rate (a : TwitterAccount) : ℚ :=
  if a.total_requests = 0 then 1
  else 1 - (a.failed_requests : ℚ) / (a.total_requests : ℚ)

/-- Embeds `TwitterAccount.health_score` (timestamps in minutes, so hours since last
use is `(now - last_used) / 60`). -/
def TwitterAccount.health_score (a : TwitterAccount) (now : ℚ) : ℚ :=
  if a.is_banned then 0
  else
    let success_score := a.success_rate
    let usage_score : ℚ :=
      if a.total_requests = 0 then 1
      else max 0 (1 - (a.total_requests : ℚ) / 1000)
    let recency_score : ℚ :=
      match a.last_used with
      | some t => min 1 (((now - t) / 60) / 24)
      | none => 1
    success_score * (1 / 2) + usage_score * (3 / 10) + recency_score * (1 / 5)

/-- Embeds `TwitterAccount.mark_used`. -/
def TwitterAccount.mark_used (a : TwitterAccount) (now : ℚ) : TwitterAccount :=
  { a with last_used := some now, total_requests := a.total_requests + 1 }

/-- Embeds `TwitterAccount.mark_failed`. -/
def TwitterAccount.mark_failed (a : TwitterAccount) : TwitterAccount :=
  { a with failed_requests := a.failed_requests + 1 }

/-- The filter `acc.is_active and not acc.is_banned` of `_select_best_account`. -/
def eligible (a : TwitterAccount) : Bool :=
  a.is_active && !a.is_banned

/-- The pool; `current_account` is the index of the current account in
`accounts` (object identity in Python becomes index identity). -/
structure AccountPool where
  accounts : List TwitterAccount
  current_account : Option Nat := none
deriving DecidableEq, Repr

/-- Positions of the accounts kept by the `available` filter of
`_select_best_account`, counting from `k`. -/
def eligibleIndicesFrom (k : Nat) : List TwitterAccount → List Nat
  | [] => []
  | a :: rest =>
      if eligible a then k :: eligibleIndicesFrom (k + 1) rest
      else eligibleIndicesFrom (k + 1) rest

def eligibleIndices (accounts : List TwitterAccount) : List Nat :=
  eligibleIndicesFrom 0 accounts

/-- Earliest position attaining the maximal value of `f`: the head of a
stable descending sort (Python `list.sort(key=..., reverse=True)` keeps
equal keys in insertion order, so `available[0]` is exactly this element). -/
def argmaxFirst (f : Nat → ℚ) : List Nat → Option Nat
  | [] => none
  | i :: rest =>
      match argmaxFirst f rest with
      | none => some i
      | some j => if f i < f j then some j else some i

/-- Health score of the account at index `i` (0 past the end, unused). -/
def scoreAt (accounts : List TwitterAccount) (now : ℚ) (i : Nat) : ℚ :=
  match accounts.get? i with
  | some a => a.health_score now
  | none => 0

/-- Embeds `AccountPool._select_best_account`: filter to `active ∧ ¬banned`, sort by
health score descending (stable), return the index of the top entry; `none`
when no account is available. -/
def select_best_account (accounts : List TwitterAccount) (now : ℚ) : Option Nat :=
  argmaxFirst (scoreAt accounts now) (eligibleIndices accounts)

/-- Set `is_banned` on the account at index `i`. -/
def banAt (l : List TwitterAccount) (i : Nat) : List TwitterAccount :=
  match l.get? i with
  | some a => l.set i { a with is_banned := true }
  | none => l

/-- The banning step at the top of `rotate_account`:
`if self.current_account and reason != "manual": self.current_account.is_banned = True`. -/
def apply_auto_ban (p : AccountPool) (reason : String) : AccountPool :=
  match p.current_account with
  | some i => if reason ≠ "manual" then { p with accounts := banAt p.accounts i } else p
  | none => p

structure RotateResult where
  pool : AccountPool
  monitor : TwitterHealthMonitor
  success : Bool
deriving DecidableEq, Repr

/-- Embeds `AccountPool.rotate_account` together with its `health_monitor.reset()`
side effect on a successful switch. -/
def rotate_account (p : AccountPool) (mon : TwitterHealthMonitor) (reason : String)
    (now : ℚ) : RotateResult :=
  let p1 := apply_auto_ban p reason
  match select_best_account p1.accounts now with
  | none => { pool := p1, monitor := mon, success := false }
  | some i =>
      if p1.current_account = some i then
        { pool := p1, monitor := mon, success := false }
      else
        { pool := { p1 with current_account := some i },
          monitor := mon.reset, success := true }

/-- Embeds `AccountPool.get_current_client`.  The outer `Option` is `none` when there
is no current account (no usage is stamped then); otherwise the current
account is `mark_used` and its (possibly absent) client handle is returned. -/
def get_current_client (p : AccountPool) (now : ℚ) : AccountPool × Option (Option Nat) :=
  match p.current_account with
  | none => (p, none)
  | some i =>
      match p.accounts.get? i with
      | none => (p, none)
      | some a =>
          ({ p with accounts := p.accounts.set i (a.mark_used now) }, some a.client)

/-- Embeds `AccountPool.mark_current_failed`. -/
def mark_current_failed (p : AccountPool) : AccountPool :=
  match p.current_account with
  | none => p
  | some i =>
      match p.accounts.get? i with
      | none => p
      | some a => { p with accounts := p.accounts.set i a.mark_failed }

/-! ## unified_twitter_client.py -/

structure TweetUser where
  screen_name : String
  followers_count : Nat
deriving DecidableEq, Repr

/-- A tweet as consumed by `search_token` / `_analyze_tweets`; `or 0` /
truthiness of absent attributes is modelled with `Option`. -/
structure Tweet where
  created_at : Option ℚ := none
  user : Option TweetUser := none
  favorite_count : Option Nat := none
  retweet_count : Option Nat := none
  text : Option String := none
  id : Option Nat := none
deriving DecidableEq, Repr

structure KolMention where
  username : String
  followers : Nat
  text : String
deriving DecidableEq, Repr

structure TopTweet where
  text : String
  author : String
  engagement : Nat
  url : String
deriving DecidableEq, Repr

/-- The result dict built by `_analyze_tweets` (plus the `source` key that
`search_token` adds afterwards). -/
structure SearchResult where
  mention_count : Nat
  unique_authors : Nat
  engagement : Nat
  sentiment : String
  sentiment_score : Int
  kol_mentions : List KolMention
  top_tweets : List TopTweet
  source : String := ""
deriving DecidableEq, Repr

/-- Engagement of a tweet: `(t.favorite_count or 0) + (t.retweet_count or 0)`. -/
def tweetEngagement (t : Tweet) : Nat :=
  t.favorite_count.getD 0 + t.retweet_count.getD 0

def positive_keywords : List String :=
  ["moon", "bullish", "gem", "lfg", "buy", "pump", "🚀", "💎", "🔥"]

def negative_keywords : List String :=
  ["scam", "rug", "dump", "sell", "bearish", "⚠️"]

/-- Stable insertion of an indexed tweet into a list ordered by engagement
descending, ties by original position ascending (a total order on the pairs,
hence exactly the order of Python's stable `sorted(..., reverse=True)`). -/
def insSortedTweet (p : Nat × Tweet) : List (Nat × Tweet) → List (Nat × Tweet)
  | [] => [p]
  | q :: rest =>
      if tweetEngagement q.2 < tweetEngagement p.2 ||
          (tweetEngagement q.2 == tweetEngagement p.2 && p.1 ≤ q.1) then
        p :: q :: rest
      else
        q :: insSortedTweet p rest

def numberFrom (k : Nat) : List Tweet → List (Nat × Tweet)
  | [] => []
  | t :: rest => (k, t) :: numberFrom (k + 1) rest

/-- Python `sorted(tweets, key=engagement, reverse=True)`. -/
def sortTweetsDesc (tweets : List Tweet) : List Tweet :=
  ((numberFrom 0 tweets).foldr insSortedTweet []).map Prod.snd

/-- Embeds `UnifiedTwitterClient._analyze_tweets`. -/
def analyze_tweets (tweets : List Tweet) : SearchResult :=
  if tweets.isEmpty then
    { mention_count := 0, unique_authors := 0, engagement := 0,
      sentiment := "neutral", sentiment_score := 0,
      kol_mentions := [], top_tweets := [] }
  else
    let mention_count := tweets.length
    let unique_authors :=
      ((tweets.filterMap (fun t => t.user.map (fun u => u.screen_name))).dedup).length
    let total_engagement := (tweets.map tweetEngagement).sum
    let sentiment_score : Int :=
      (tweets.map (fun t =>
        let text := (t.text.getD "").toLower
        ((positive_keywords.filter (fun kw => containsKeyword text kw)).length : Int) -
          ((negative_keywords.filter (fun kw => containsKeyword text kw)).length : Int))).sum
    let sentiment :=
      if 2 < sentiment_score then "positive"
      else if sentiment_score < -2 then "negative"
      else "neutral"
    let kol_mentions := tweets.filterMap (fun t =>
      match t.user with
      | some u =>
          if 10000 ≤ u.followers_count then
            some { username := "@" ++ u.screen_name, followers := u.followers_count,
                   text := (t.text.getD "").take 100 : KolMention }
          else none
      | none => none)
    let top_tweets := ((sortTweetsDesc tweets).take 5).map (fun t =>
      { text := (t.text.getD "").take 200,
        author := match t.user with
          | some u => "@" ++ u.screen_name
          | none => "unknown",
        engagement := tweetEngagement t,
        url := match t.user, t.id with
          | some u, some i =>
              "https://twitter.com/" ++ u.screen_name ++ "/status/" ++ toString i
          | _, _ => "" : TopTweet })
    { mention_count := mention_count, unique_authors := unique_authors,
      engagement := total_engagement, sentiment := sentiment,
      sentiment_score := sentiment_score, kol_mentions := kol_mentions.take 5,
      top_tweets := top_tweets }

/-- A raised Python exception: class name (`type(e).__name__`) and message. -/
structure PyError where
  name : String
  msg : String
deriving DecidableEq, Repr

/-- The external world of one `search_token` call: the clock, the measured
elapsed time, the per-query twikit search (taking the opaque client handle),
the Grok fallback search, and `grok_client.logged_in`. -/
structure Env where
  now : ℚ
  elapsed : ℚ
  twikitSearch : Nat → String → Except PyError (List Tweet)
  grokSearch : List String → Nat → Except PyError SearchResult
  grok_logged_in : Bool

/-- An alert dict built by `UnifiedTwitterClient._trigger_alert`. -/
structure ClientAlert where
  timestamp : ℚ
  type : String
  message : String
  health_status : HealthStatus
  using_grok : Bool
deriving DecidableEq, Repr

/-- The mutable state shared by the unified client and the module-global pool
and monitor it drives. -/
structure SystemState where
  use_grok : Bool
  cache : List (String × SearchResult × ℚ)
  pool : AccountPool
  monitor : TwitterHealthMonitor
deriving DecidableEq, Repr

/-- Cache lookup `self.cache.get(cache_key)`: first entry for the key, absent once expired. -/
def cacheGet (c : List (String × SearchResult × ℚ)) (key : String) (now : ℚ) :
    Option SearchResult :=
  match c.find? (fun e => e.1 == key) with
  | some e => if now < e.2.2 then some e.2.1 else none
  | none => none

/-- Cache store `self.cache.set(cache_key, result, expire=300)` (300 s = 5 minutes). -/
def cacheSet (c : List (String × SearchResult × ℚ)) (key : String)
    (val : SearchResult) (now : ℚ) : List (String × SearchResult × ℚ) :=
  (key, val, now + 5) :: c

/-- Embeds `UnifiedTwitterClient._trigger_alert` snapshot. -/
def mkAlert (s : SystemState) (now : ℚ) (ty msg : String) : ClientAlert :=
  { timestamp := now, type := ty, message := msg,
    health_status := s.monitor.status, using_grok := s.use_grok }

/-- Embeds `UnifiedTwitterClient._switch_to_grok`. -/
def switch_to_grok (env : Env) (s : SystemState) (reason : String) :
    SystemState × List ClientAlert :=
  if s.use_grok then (s, [])
  else if !env.grok_logged_in then
    (s, [mkAlert s env.now "failover_failed"
          "❌ 无法切换到Grok! API密钥未配置. 系统将继续尝试Twikit."])
  else
    let s1 := { s with use_grok := true }
    (s1, [mkAlert s1 env.now "switched_to_grok"
           ("✅ 已切换到Grok API备用方案. 原因: " ++ reason)])

/-- Embeds `UnifiedTwitterClient._on_health_alert`.  The third component counts
`asyncio.create_task(account_pool.rotate_account("health_degraded"))` calls:
the task is only scheduled and cannot run before the next event-loop yield. -/
def on_health_alert (env : Env) (s : SystemState) (a : HealthAlert) :
    SystemState × List ClientAlert × Nat :=
  match a with
  | .critical_failure error_type error_message =>
      let al1 := mkAlert s env.now "twikit_critical_failure"
        ("⛔ Twikit账号可能被封: " ++ error_type ++ " - " ++ error_message ++
         ". 切换到Grok备用方案!")
      let sw := switch_to_grok env s "账号被封或严重错误"
      (sw.1, al1 :: sw.2, 0)
  | .status_change old_status new_status =>
      if new_status = HealthStatus.failing then
        let al1 := mkAlert s env.now "twikit_degraded"
          ("⚠️ Twikit服务状态变差: " ++ old_status.value ++ " → " ++
           new_status.value ++ ". 考虑账号轮换或切换Grok.")
        if !s.use_grok then (s, [al1], 1) else (s, [al1], 0)
      else if new_status = HealthStatus.failed then
        let al1 := mkAlert s env.now "twikit_failed" "🚨 Twikit完全失效! 自动切换到Grok API."
        let sw := switch_to_grok env s "健康检查失败"
        (sw.1, al1 :: sw.2, 0)
      else
        (s, [], 0)

/-- Synchronous delivery of the monitor's alerts to the one registered
callback, `_on_health_alert`. -/
def deliver_health_alerts (env : Env) (s : SystemState) (alerts : List HealthAlert) :
    SystemState × List ClientAlert × Nat :=
  alerts.foldl
    (fun acc a =>
      let r := on_health_alert env acc.1 a
      (r.1, acc.2.1 ++ r.2.1, acc.2.2 + r.2.2))
    (s, [], 0)

/-- Python's `sorted(queries)` (code-point lexicographic). -/
def strLtB : List Char → List Char → Bool
  | [], [] => false
  | [], _ :: _ => true
  | _ :: _, [] => false
  | a :: as, b :: bs => if a < b then true else if b < a then false else strLtB as bs

def insSortedStr (x : String) : List String → List String
  | [] => [x]
  | y :: rest => if strLtB y.data x.data then y :: insSortedStr x rest else x :: y :: rest

def sortStrings (l : List String) : List String :=
  l.foldr insSortedStr []

/-- The cache key: the literal search prefix, the colon-joined sorted queries and
the timeframe, colon-separated. -/
def cache_key (queries : List String) (timeframe_minutes : Nat) : String :=
  "search:" ++ String.intercalate ":" (sortStrings queries) ++ ":" ++
    toString timeframe_minutes

/-- The per-query loop of the twikit branch of `search_token`: each
`client.search_tweet` call (and the timeframe filtering of its results) sits
in a `try/except` that logs and continues on any exception, so a failing
query contributes nothing.  (Note: the source file never imports `timedelta`,
so at runtime the cutoff line itself raises `NameError`, which the same
per-query handler also swallows; no theorem below depends on the filtering
branch, whose intended form is embedded.) -/
def gatherTweets (env : Env) (c : Nat) (queries : List String)
    (timeframe_minutes : Nat) : List Tweet :=
  queries.foldl
    (fun all_tweets query =>
      match env.twikitSearch c query with
      | .ok tweets =>
          let cutoff_time := env.now - (timeframe_minutes : ℚ)
          all_tweets ++ tweets.filter (fun t =>
            match t.created_at with
            | some ts => decide (cutoff_time < ts)
            | none => false)
      | .error _ => all_tweets)
    []

/-- The body of the `try` block of `search_token` up to (not including)
`record_success`: run the selected provider, or raise. -/
def run_provider (env : Env) (s : SystemState) (queries : List String)
    (timeframe_minutes : Nat) : SystemState × Except PyError SearchResult :=
  if s.use_grok then
    match env.grokSearch queries timeframe_minutes with
    | .ok r => (s, .ok { r with source := "grok_api" })
    | .error e => (s, .error e)
  else
    let gc := get_current_client s.pool env.now
    let s1 := { s with pool := gc.1 }
    match gc.2 with
    | some (some c) =>
        (s1, .ok { analyze_tweets (gatherTweets env c queries timeframe_minutes) with
                     source := "twikit" })
    | _ => (s1, .error { name := "Exception", msg := "No available Twikit accounts" })

/-- Result of one `search_token` call: final state, returned value or raised
exception, the client alerts emitted, and how many account rotations were
scheduled (but not yet run) via `asyncio.create_task`. -/
structure SearchOutcome where
  state : SystemState
  result : Except PyError SearchResult
  alerts : List ClientAlert
  rotations_scheduled : Nat
deriving Repr

/-- Embeds `UnifiedTwitterClient.search_token`.  The recursion
`return await self.search_token(queries, timeframe_minutes)` is fuelled;
exhausted fuel models Python's recursion limit (`RecursionError`). -/
def search_token (env : Env) :
    Nat → SystemState → List String → Nat → SearchOutcome
  | 0, s, _queries, _timeframe_minutes =>
      { state := s,
        result := .error { name := "RecursionError",
                           msg := "maximum recursion depth exceeded" },
        alerts := [], rotations_scheduled := 0 }
  | fuel + 1, s, queries, timeframe_minutes =>
      let key := cache_key queries timeframe_minutes
      match cacheGet s.cache key env.now with
      | some cached =>
          { state := s, result := .ok cached, alerts := [], rotations_scheduled := 0 }
      | none =>
          match run_provider env s queries timeframe_minutes with
          | (s1, .ok result) =>
              let rs := record_success s1.monitor env.now env.elapsed
              let d := deliver_health_alerts env { s1 with monitor := rs.1 } rs.2
              let s2 := d.1
              let s3 := { s2 with cache := cacheSet s2.cache key result env.now }
              { state := s3, result := .ok result, alerts := d.2.1,
                rotations_scheduled := d.2.2 }
          | (s1, .error e) =>
              let rf := record_failure s1.monitor env.now e.name e.msg
              let d := deliver_health_alerts env { s1 with monitor := rf.1 } rf.2
              let s2 := d.1
              let s3 := { s2 with pool := mark_current_failed s2.pool }
              if should_failover s3.monitor && !s3.use_grok then
                let sw := switch_to_grok env s3 ("连续失败: " ++ e.name)
                let out := search_token env fuel sw.1 queries timeframe_minutes
                { state := out.state, result := out.result,
                  alerts := d.2.1 ++ sw.2 ++ out.alerts,
                  rotations_scheduled := d.2.2 + out.rotations_scheduled }
              else
                { state := s3, result := .error e, alerts := d.2.1,
                  rotations_scheduled := d.2.2 }

/-! ## Spec-side vocabulary and concrete sample inputs -/

/-- The spec's window rate: `successes / (successes + failures)`, `1.0` on an
empty window. -/
def specWindowRate (S F : Nat) : ℚ :=
  if S + F = 0 then 1 else (S : ℚ) / ((S : ℚ) + (F : ℚ))

/-- The spec's re-evaluation priority chain. -/
def specNewStatus (consecutive_failures : Nat) (rate : ℚ) : HealthStatus :=
  if 5 ≤ consecutive_failures then .failing
  else if rate < 7 / 10 then .failing
  else if rate < 17 / 20 then .degraded
  else .healthy

/-- True unless the alert is a `status_change` whose new state is `FAILED`. -/
def statusChangeNotFailed : HealthAlert → Bool
  | .status_change _ n => !(n == HealthStatus.failed)
  | .critical_failure _ _ => true

def sampleAccount : TwitterAccount :=
  { username := "alice", email := "alice@example.com", password := "pw",
    client := some 0, is_active := true }

def samplePool : AccountPool :=
  { accounts := [sampleAccount], current_account := some 0 }

def usedAccount : TwitterAccount :=
  { username := "bob", email := "bob@example.com", password := "pw",
    client := some 1, is_active := true, total_requests := 500 }

def demoAccounts : List TwitterAccount := [usedAccount, sampleAccount]

def demoPool : AccountPool :=
  { accounts := demoAccounts, current_account := some 0 }

def grokResult : SearchResult :=
  { mention_count := 3, unique_authors := 2, engagement := 10,
    sentiment := "neutral", sentiment_score := 0, kol_mentions := [], top_tweets := [] }

/-- Primary path; the provider raises a critical identity error on every
query; the Grok fallback is configured. -/
def envCritical : Env :=
  { now := 100, elapsed := 1,
    twikitSearch := fun _ _ =>
      .error { name := "Forbidden", msg := "Account suspended (403 Forbidden)" },
    grokSearch := fun _ _ => .ok grokResult,
    grok_logged_in := true }

/-- Primary path; the provider raises a plain transient error on every query;
no fallback configured. -/
def envTimeout : Env :=
  { now := 100, elapsed := 1,
    twikitSearch := fun _ _ =>
      .error { name := "TimeoutError", msg := "Connection timed out" },
    grokSearch := fun _ _ =>
      .error { name := "Exception", msg := "XAI_API_KEY not configured" },
    grok_logged_in := false }

def stPrimary : SystemState :=
  { use_grok := false, cache := [], pool := samplePool, monitor := .init }

def emptyPool : AccountPool := { accounts := [], current_account := none }

def stExhausted : SystemState :=
  { use_grok := false, cache := [], pool := emptyPool, monitor := .init }

def failedMonitor : TwitterHealthMonitor :=
  { metrics := {}, status := .failed, recent_events := [] }

/-! ## Theorems -/

/-- C1: the spec scenario says that when the primary provider raises a
critical identity error and the fallback is configured, `handleRequest`
switches to the fallback and returns the fallback's result without raising.
The code does neither: the provider's critical error is swallowed by the
per-query `except` inside `search_token` (only logged), so it never reaches
`record_failure`; the request is recorded as a *success*, the empty `twikit`
result is returned, the fallback flag is never set, and no alert fires. -/
theorem c1_critical_identity_error_swallowed_no_failover :
    is_critical_failure "Forbidden" "Account suspended (403 Forbidden)" = true ∧
    (search_token envCritical 2 stPrimary ["$TOKEN"] 15).result =
      .ok { analyze_tweets [] with source := "twikit" } ∧
    (search_token envCritical 2 stPrimary ["$TOKEN"] 15).state.use_grok = false ∧
    (search_token envCritical 2 stPrimary ["$TOKEN"] 15).state.monitor.metrics.failed_requests = 0 ∧
    (search_token envCritical 2 stPrimary ["$TOKEN"] 15).state.monitor.metrics.successful_requests = 1 ∧
    (search_token envCritical 2 stPrimary ["$TOKEN"] 15).alerts = [] ∧
    (search_token envCritical 2 stPrimary ["$TOKEN"] 15).rotations_scheduled = 0 := by
  with_unfolding_all exact ⟨rfl, rfl, rfl, rfl, rfl, rfl, rfl⟩

/-- C2: the spec says that with failover warranted and no fallback configured
the original error propagates, the flag stays unset, a `failover_failed`
alert fires, and no further retry occurs.  The code does keep the flag unset
and emits `failover_failed`, but instead of propagating it re-invokes
`search_token` on the primary path: with fuel 3 the exhausted pool's error is
recorded three times for one request, three `failover_failed` alerts fire,
and what finally escapes is the recursion-limit error, not the original
`"No available Twikit accounts"` exception. -/
theorem c2_failover_unconfigured_retries_unboundedly :
    (search_token envTimeout 3 stExhausted ["q"] 15).state.use_grok = false ∧
    ((search_token envTimeout 3 stExhausted ["q"] 15).alerts.filter
        (fun a => a.type == "failover_failed")).length = 3 ∧
    (search_token envTimeout 3 stExhausted ["q"] 15).state.monitor.metrics.failed_requests = 3 ∧
    (search_token envTimeout 3 stExhausted ["q"] 15).result =
      .error { name := "RecursionError", msg := "maximum recursion depth exceeded" } := by
  with_unfolding_all exact ⟨rfl, rfl, rfl, rfl⟩

/-- C3 counterexample: the claim's keyword set spells the multi-word keywords
with hyphens.  `"Error account-not-found"` contains the claimed keyword
`"account-not-found"`, yet the code (whose keyword is `"account not found"`,
with spaces) does not classify it as critical: the state becomes `FAILING`,
not `FAILED`, and only a `status_change` alert is emitted. -/
theorem c3_counterexample_hyphenated_keyword :
    containsKeyword ("Error" ++ " " ++ "account-not-found").toLower "account-not-found" = true ∧
    is_critical_failure "Error" "account-not-found" = false ∧
    (record_failure .init 0 "Error" "account-not-found").1.status = .failing ∧
    (record_failure .init 0 "Error" "account-not-found").2 =
      [.status_change .healthy .failing] := by
  with_unfolding_all exact ⟨rfl, rfl, rfl, rfl⟩

theorem updateStatus_of_failed (m : TwitterHealthMonitor) (h : m.status = .failed) :
    updateStatus m = (m, []) := by
  simp [updateStatus, h]

theorem record_success_sticky (m : TwitterHealthMonitor) (now rt : ℚ)
    (h : m.status = .failed) : (record_success m now rt).1.status = .failed := by
  simp [record_success, TwitterHealthMonitor.recordEvent, updateStatus, h]

theorem record_failure_sticky (m : TwitterHealthMonitor) (now : ℚ)
    (error_type error_message : String) (h : m.status = .failed) :
    (record_failure m now error_type error_message).1.status = .failed := by
  by_cases hc : is_critical_failure error_type error_message
  · simp [record_failure, hc, updateStatus]
  · simp [record_failure, hc, TwitterHealthMonitor.recordEvent, updateStatus, h]

/-- C3 (amended): with the keywords spelled as in the code — the multi-word
ones with spaces, {suspended, banned, locked, "account not found",
"authorization failed", "invalid credentials", forbidden, 403} — a single
`record_failure` whose lower-cased `"<kind> <message>"` string contains any
keyword forces the state to `FAILED` and emits a `critical_failure` alert,
for every prior state and streak, bypassing normal re-evaluation. -/
theorem c3_critical_keyword_forces_failed (m : TwitterHealthMonitor) (now : ℚ)
    (error_type error_message : String)
    (h : ∃ kw ∈ critical_keywords,
        containsKeyword (error_type ++ " " ++ error_message).toLower kw = true) :
    (record_failure m now error_type error_message).1.status = .failed ∧
      HealthAlert.critical_failure error_type error_message ∈
        (record_failure m now error_type error_message).2 := by
  have hcrit : is_critical_failure error_type error_message = true := by
    rcases h with ⟨kw, hmem, hc⟩
    unfold is_critical_failure
    exact List.any_eq_true.mpr ⟨kw, hmem, hc⟩
  constructor
  · simp [record_failure, hcrit, updateStatus]
  · simp [record_failure, hcrit, updateStatus]

theorem c3_witness :
    (record_failure failedMonitor 3 "AccountSuspended" "user suspended").1.status = .failed ∧
      HealthAlert.critical_failure "AccountSuspended" "user suspended" ∈
        (record_failure failedMonitor 3 "AccountSuspended" "user suspended").2 :=
  c3_critical_keyword_forces_failed failedMonitor 3 "AccountSuspended" "user suspended"
    ⟨"suspended", by decide, by with_unfolding_all decide⟩

/-- C4: the monitor starts in `HEALTHY`; `FAILED` is sticky under every
sequence of `record_success`/`record_failure` calls; `reset` restores the
fresh monitor (state `HEALTHY`, zeroed metrics, empty event window). -/
theorem c4_init_healthy_failed_sticky_reset (ops : List MonitorOp)
    (m : TwitterHealthMonitor) :
    TwitterHealthMonitor.init.status = .healthy ∧
    (m.status = .failed → (applyOps ops m).status = .failed) ∧
    m.reset = TwitterHealthMonitor.init := by
  refine ⟨rfl, ?_, rfl⟩
  intro h
  induction ops generalizing m with
  | nil => exact h
  | cons op rest ih =>
      have h1 : (applyOp m op).status = .failed := by
        cases op with
        | success now rt => exact record_success_sticky m now rt h
        | failure now et em => exact record_failure_sticky m now et em h
      exact ih _ h1

theorem c4_witness :
    failedMonitor.status = .failed ∧
    (applyOps [MonitorOp.success 1 1, MonitorOp.failure 2 "Timeout" "t",
               MonitorOp.success 3 1] failedMonitor).status = .failed :=
  ⟨rfl, (c4_init_healthy_failed_sticky_reset _ failedMonitor).2.1 rfl⟩

theorem nextStatus_ne_failed (m : TwitterHealthMonitor) :
    nextStatus m ≠ HealthStatus.failed := by
  unfold nextStatus
  simp only []
  split
  · simp
  · split
    · simp
    · split <;> simp

theorem updateStatus_alerts_ok (m : TwitterHealthMonitor) :
    (updateStatus m).2.all statusChangeNotFailed = true := by
  by_cases h : m.status = HealthStatus.failed
  · simp [updateStatus, h]
  · by_cases h2 : nextStatus m ≠ m.status
    · simp [updateStatus, h, h2, statusChangeNotFailed, nextStatus_ne_failed m]
    · simp [updateStatus, h, h2]

/-- C10: the health monitor never emits a `status_change` alert whose new
state is `FAILED`: every alert emitted by `record_success` or
`record_failure` is either a `critical_failure` or a `status_change` to a
state other than `FAILED` (re-evaluation only produces `HEALTHY`, `DEGRADED`
or `FAILING`, and after a critical failure it returns early). -/
theorem c10_no_status_change_to_failed (m : TwitterHealthMonitor) (now rt : ℚ)
    (error_type error_message : String) :
    (record_success m now rt).2.all statusChangeNotFailed = true ∧
    (record_failure m now error_type error_message).2.all statusChangeNotFailed = true := by
  constructor
  · exact updateStatus_alerts_ok _
  · by_cases hc : is_critical_failure error_type error_message
    · simp only [record_failure, hc, if_true, reduceIte]
      simp [statusChangeNotFailed, updateStatus_alerts_ok]
    · simp only [record_failure, hc, if_false, reduceIte]
      exact updateStatus_alerts_ok _

theorem filter_type_length (l : List HealthEvent) :
    (l.filter (fun e => e.type == EventType.success)).length +
      (l.filter (fun e => e.type == EventType.failure)).length = l.length := by
  induction l with
  | nil => rfl
  | cons e rest ih =>
      cases h : e.type <;> simp [List.filter_cons, h] <;> omega

theorem windowRate_eq_spec (l : List HealthEvent) :
    windowSuccessRate l =
      specWindowRate (l.filter (fun e => e.type == EventType.success)).length
        (l.filter (fun e => e.type == EventType.failure)).length := by
  have hpart := filter_type_length l
  by_cases h0 : l.length = 0
  · have hS : (l.filter (fun e => e.type == EventType.success)).length = 0 := by omega
    have hF : (l.filter (fun e => e.type == EventType.failure)).length = 0 := by omega
    simp [windowSuccessRate, specWindowRate, h0, hS, hF]
  · have hpos : 0 < l.length := Nat.pos_of_ne_zero h0
    have hSF : ¬((l.filter (fun e => e.type == EventType.success)).length +
        (l.filter (fun e => e.type == EventType.failure)).length = 0) := by omega
    unfold windowSuccessRate specWindowRate
    rw [if_pos hpos, if_neg hSF, ← hpart]
    push_cast
    ring

/-- C5: whenever re-evaluation runs with state not `FAILED`, the new state is
determined by the priority chain — `FAILING` on a streak of at least 5, else
`FAILING`/`DEGRADED`/`HEALTHY` by the windowed rate `S/(S+F)` (1 when the
window is empty) against 0.70 and 0.85 — and a `status_change` alert is
emitted iff the resulting state differs from the prior one. -/
theorem c5_reevaluation_rule (m : TwitterHealthMonitor)
    (h : m.status ≠ HealthStatus.failed) :
    (updateStatus m).1.status =
      specNewStatus m.metrics.consecutive_failures
        (specWindowRate
          (m.recent_events.filter (fun e => e.type == EventType.success)).length
          (m.recent_events.filter (fun e => e.type == EventType.failure)).length) ∧
    (updateStatus m).2 =
      (if (updateStatus m).1.status ≠ m.status then
        [HealthAlert.status_change m.status ((updateStatus m).1.status)]
      else []) := by
  have hstat : (updateStatus m).1.status = nextStatus m := by
    simp [updateStatus, h]
  have hns : nextStatus m =
      specNewStatus m.metrics.consecutive_failures
        (specWindowRate
          (m.recent_events.filter (fun e => e.type == EventType.success)).length
          (m.recent_events.filter (fun e => e.type == EventType.failure)).length) := by
    unfold nextStatus specNewStatus
    rw [windowRate_eq_spec]
    simp [max_consecutive_failures, min_success_rate, degraded_threshold]
  constructor
  · rw [hstat, hns]
  · rw [hstat]
    simp [updateStatus, h]

theorem c5_witness :
    (updateStatus TwitterHealthMonitor.init).1.status =
      specNewStatus 0 (specWindowRate 0 0) :=
  (c5_reevaluation_rule TwitterHealthMonitor.init (by decide)).1

theorem apply_auto_ban_current (p : AccountPool) (reason : String) :
    (apply_auto_ban p reason).current_account = p.current_account := by
  unfold apply_auto_ban
  cases h : p.current_account with
  | none => exact h
  | some val =>
      split
      · split
        · rfl
        · exact h
      · exact h

theorem rotate_account_accounts (p : AccountPool) (mon : TwitterHealthMonitor)
    (reason : String) (now : ℚ) :
    (rotate_account p mon reason now).pool.accounts =
      (apply_auto_ban p reason).accounts := by
  unfold rotate_account
  simp only []
  split
  · rfl
  · split <;> rfl

theorem apply_auto_ban_get (p : AccountPool) (reason : String) (i : Nat)
    (a : TwitterAccount) (hr : reason ≠ "manual") (hc : p.current_account = some i)
    (ha : p.accounts.get? i = some a) :
    (apply_auto_ban p reason).accounts.get? i = some { a with is_banned := true } := by
  unfold apply_auto_ban
  rw [hc]
  show (if reason ≠ "manual" then
      ({ accounts := banAt p.accounts i, current_account := some i } : AccountPool)
    else p).accounts.get? i = _
  rw [if_pos hr]
  show (banAt p.accounts i).get? i = _
  unfold banAt
  rw [ha, List.get?_set_eq, ha]
  rfl

theorem apply_auto_ban_manual (p : AccountPool) :
    apply_auto_ban p "manual" = p := by
  unfold apply_auto_ban
  cases p.current_account <;> simp

/-- C6: an automatic (non-`"manual"`) `rotate_account` sets `banned` on the
identity that was current at the call before re-selecting, while a manual one
leaves every account untouched; if the re-selected best candidate is the
current identity the rotation is a no-op reported as failure; a successful
rotation moves the current pointer to the selected index (different from the
old one) and resets the health monitor. -/
theorem c6_rotate_ban_policy (p : AccountPool) (mon : TwitterHealthMonitor)
    (reason : String) (now : ℚ) :
    (reason ≠ "manual" → ∀ i a, p.current_account = some i →
        p.accounts.get? i = some a →
        (rotate_account p mon reason now).pool.accounts.get? i =
          some { a with is_banned := true }) ∧
    (reason = "manual" →
        (rotate_account p mon reason now).pool.accounts = p.accounts) ∧
    (∀ i, select_best_account (apply_auto_ban p reason).accounts now = some i →
        p.current_account = some i →
        rotate_account p mon reason now =
          { pool := apply_auto_ban p reason, monitor := mon, success := false }) ∧
    ((rotate_account p mon reason now).success = true →
        ∃ i, select_best_account (apply_auto_ban p reason).accounts now = some i ∧
          (rotate_account p mon reason now).pool.current_account = some i ∧
          p.current_account ≠ some i ∧
          (rotate_account p mon reason now).monitor = TwitterHealthMonitor.init) := by
  refine ⟨?_, ?_, ?_, ?_⟩
  · intro hr i a hc ha
    rw [rotate_account_accounts]
    exact apply_auto_ban_get p reason i a hr hc ha
  · intro hr
    subst hr
    rw [rotate_account_accounts, apply_auto_ban_manual]
  · intro i hsel hc
    unfold rotate_account
    simp only [hsel]
    rw [if_pos]
    rw [apply_auto_ban_current, hc]
  · intro hsucc
    unfold rotate_account at hsucc ⊢
    simp only [] at hsucc ⊢
    cases hsel : select_best_account (apply_auto_ban p reason).accounts now with
    | none => simp [hsel] at hsucc
    | some i =>
        simp only [hsel] at hsucc ⊢
        by_cases hcur : (apply_auto_ban p reason).current_account = some i
        · simp [hcur] at hsucc
        · refine ⟨i, rfl, ?_, ?_, ?_⟩
          · simp [hcur]
          · rw [← apply_auto_ban_current p reason]; exact hcur
          · simp [hcur, TwitterHealthMonitor.reset]

theorem c6_witness :
    (rotate_account demoPool TwitterHealthMonitor.init "health_degraded" 0).pool.accounts.get? 0 =
      some { usedAccount with is_banned := true } :=
  (c6_rotate_ban_policy demoPool TwitterHealthMonitor.init "health_degraded" 0).1
    (by decide) 0 usedAccount rfl rfl

/-- C9 (implicit): when an automatic rotation fails (for instance because no
other identity is active and unbanned), the just-banned identity remains the
pool's current identity, and `get_current_client` still hands out its client
handle while stamping `last_used` and incrementing `total_requests`. -/
theorem c9_banned_identity_stays_current (p : AccountPool)
    (mon : TwitterHealthMonitor) (reason : String) (now now2 : ℚ) (i : Nat)
    (a : TwitterAccount)
    (hr : reason ≠ "manual")
    (hc : p.current_account = some i)
    (ha : p.accounts.get? i = some a)
    (hfail : (rotate_account p mon reason now).success = false) :
    (rotate_account p mon reason now).pool.current_account = some i ∧
    (rotate_account p mon reason now).pool.accounts.get? i =
      some { a with is_banned := true } ∧
    (get_current_client (rotate_account p mon reason now).pool now2).2 =
      some a.client ∧
    (get_current_client (rotate_account p mon reason now).pool now2).1.accounts.get? i =
      some { a with is_banned := true, last_used := some now2,
                    total_requests := a.total_requests + 1 } := by
  have hpool : (rotate_account p mon reason now).pool = apply_auto_ban p reason := by
    unfold rotate_account at hfail ⊢
    simp only [] at hfail ⊢
    cases hsel : select_best_account (apply_auto_ban p reason).accounts now with
    | none => simp [hsel]
    | some j =>
        simp only [hsel] at hfail ⊢
        by_cases hcur : (apply_auto_ban p reason).current_account = some j
        · simp [hcur]
        · simp [hcur] at hfail
  have hcur1 : (rotate_account p mon reason now).pool.current_account = some i := by
    rw [hpool, apply_auto_ban_current]; exact hc
  have hget1 : (rotate_account p mon reason now).pool.accounts.get? i =
      some { a with is_banned := true } := by
    rw [hpool]
    exact apply_auto_ban_get p reason i a hr hc ha
  refine ⟨hcur1, hget1, ?_, ?_⟩
  · unfold get_current_client
    simp only [hcur1, hget1]
  · unfold get_current_client
    simp only [hcur1, hget1]
    rw [List.get?_set_eq, hget1]
    rfl

theorem c9_witness :
    (rotate_account samplePool TwitterHealthMonitor.init "health_degraded" 5).pool.current_account =
        some 0 ∧
    (get_current_client
        (rotate_account samplePool TwitterHealthMonitor.init "health_degraded" 5).pool 6).2 =
      some sampleAccount.client := by
  have h := c9_banned_identity_stays_current samplePool TwitterHealthMonitor.init
    "health_degraded" 5 6 0 sampleAccount (by decide) rfl rfl
    (by with_unfolding_all decide)
  exact ⟨h.1, h.2.2.1⟩

theorem argmaxFirst_none (f : Nat → ℚ) (l : List Nat) (h : argmaxFirst f l = none) :
    l = [] := by
  cases l with
  | nil => rfl
  | cons i rest =>
      exfalso
      unfold argmaxFirst at h
      cases hr : argmaxFirst f rest with
      | none =>
          simp only [hr] at h
          exact Option.noConfusion h
      | some j => simp only [hr] at h; split at h <;> exact Option.noConfusion h

theorem argmaxFirst_spec (f : Nat → ℚ) :
    ∀ (l : List Nat) (i : Nat), argmaxFirst f l = some i →
      ∃ l₁ l₂, l = l₁ ++ i :: l₂ ∧ (∀ j ∈ l₁, f j < f i) ∧ (∀ j ∈ l, f j ≤ f i) := by
  intro l
  induction l with
  | nil => intro i h; exact absurd h (by simp [argmaxFirst])
  | cons x rest ih =>
      intro i h
      unfold argmaxFirst at h
      cases hr : argmaxFirst f rest with
      | none =>
          simp only [hr] at h
          have hx : x = i := Option.some.inj h
          subst hx
          have hrest : rest = [] := argmaxFirst_none f rest hr
          subst hrest
          exact ⟨[], [], rfl, by simp, by simp⟩
      | some j =>
          simp only [hr] at h
          by_cases hc : f x < f j
          · rw [if_pos hc] at h
            have hj : j = i := Option.some.inj h
            subst hj
            rcases ih j hr with ⟨l₁, l₂, heq, hlt, hle⟩
            refine ⟨x :: l₁, l₂, by rw [heq]; rfl, ?_, ?_⟩
            · intro k hk
              rcases List.mem_cons.mp hk with hk1 | hk2
              · rw [hk1]; exact hc
              · exact hlt k hk2
            · intro k hk
              rcases List.mem_cons.mp hk with hk1 | hk2
              · rw [hk1]; exact le_of_lt hc
              · exact hle k hk2
          · rw [if_neg hc] at h
            have hx : x = i := Option.some.inj h
            subst hx
            rcases ih j hr with ⟨l₁, l₂, heq, hlt, hle⟩
            refine ⟨[], rest, rfl, by simp, ?_⟩
            intro k hk
            rcases List.mem_cons.mp hk with hk1 | hk2
            · rw [hk1]
            · exact le_trans (hle k hk2) (not_lt.mp hc)

theorem eligibleIndicesFrom_ge (l : List TwitterAccount) :
    ∀ (k : Nat), ∀ i ∈ eligibleIndicesFrom k l, k ≤ i := by
  induction l with
  | nil => intro k i h; simp [eligibleIndicesFrom] at h
  | cons a rest ih =>
      intro k i h
      unfold eligibleIndicesFrom at h
      by_cases ha : eligible a = true
      · rw [if_pos ha] at h
        rcases List.mem_cons.mp h with h1 | h2
        · omega
        · have := ih (k + 1) i h2; omega
      · rw [if_neg ha] at h
        have := ih (k + 1) i h; omega

theorem eligibleIndicesFrom_pairwise (l : List TwitterAccount) :
    ∀ (k : Nat), (eligibleIndicesFrom k l).Pairwise (· < ·) := by
  induction l with
  | nil => intro k; simp [eligibleIndicesFrom]
  | cons a rest ih =>
      intro k
      unfold eligibleIndicesFrom
      by_cases ha : eligible a = true
      · rw [if_pos ha]
        refine List.Pairwise.cons ?_ (ih (k + 1))
        intro m hm
        have := eligibleIndicesFrom_ge rest (k + 1) m hm
        omega
      · rw [if_neg ha]; exact ih (k + 1)

theorem mem_eligibleIndicesFrom (l : List TwitterAccount) :
    ∀ (k j : Nat), (k + j) ∈ eligibleIndicesFrom k l ↔
      ∃ a, l.get? j = some a ∧ eligible a = true := by
  induction l with
  | nil => intro k j; simp [eligibleIndicesFrom]
  | cons x rest ih =>
      intro k j
      unfold eligibleIndicesFrom
      by_cases hx : eligible x = true
      · rw [if_pos hx]
        constructor
        · intro h
          rcases List.mem_cons.mp h with h1 | h2
          · have hj : j = 0 := by omega
            subst hj
            exact ⟨x, rfl, hx⟩
          · have hge := eligibleIndicesFrom_ge rest (k + 1) _ h2
            cases j with
            | zero => omega
            | succ n =>
                have h2' : (k + 1) + n ∈ eligibleIndicesFrom (k + 1) rest := by
                  have he : k + (n + 1) = (k + 1) + n := by omega
                  rwa [he] at h2
                rcases (ih (k + 1) n).mp h2' with ⟨a, ha, he⟩
                exact ⟨a, by simpa using ha, he⟩
        · rintro ⟨a, ha, he⟩
          cases j with
          | zero =>
              simp
          | succ n =>
              have h2 : (k + 1) + n ∈ eligibleIndicesFrom (k + 1) rest :=
                (ih (k + 1) n).mpr ⟨a, by simpa using ha, he⟩
              have hfix : k + (n + 1) = (k + 1) + n := by omega
              rw [hfix]
              exact List.mem_cons_of_mem _ h2
      · rw [if_neg hx]
        constructor
        · intro h
          have hge := eligibleIndicesFrom_ge rest (k + 1) _ h
          cases j with
          | zero => omega
          | succ n =>
              have h2' : (k + 1) + n ∈ eligibleIndicesFrom (k + 1) rest := by
                have he : k + (n + 1) = (k + 1) + n := by omega
                rwa [he] at h
              rcases (ih (k + 1) n).mp h2' with ⟨a, ha, he⟩
              exact ⟨a, by simpa using ha, he⟩
        · rintro ⟨a, ha, he⟩
          cases j with
          | zero =>
              exfalso
              have hax : x = a := by simpa using ha
              rw [hax] at hx
              exact hx he
          | succ n =>
              have h2 : (k + 1) + n ∈ eligibleIndicesFrom (k + 1) rest :=
                (ih (k + 1) n).mpr ⟨a, by simpa using ha, he⟩
              have hfix : k + (n + 1) = (k + 1) + n := by omega
              rw [hfix]
              exact h2

theorem mem_eligibleIndices (l : List TwitterAccount) (j : Nat) :
    j ∈ eligibleIndices l ↔ ∃ a, l.get? j = some a ∧ eligible a = true := by
  have h := mem_eligibleIndicesFrom l 0 j
  simpa using h

theorem scoreAt_eq (accounts : List TwitterAccount) (now : ℚ) (j : Nat)
    (b : TwitterAccount) (hb : accounts.get? j = some b) :
    scoreAt accounts now j = b.health_score now := by
  unfold scoreAt
  rw [hb]

/-- C7: `selectBest` never returns a banned or inactive identity; when the
eligible subset is empty it returns none (pool exhausted); otherwise it
returns the index of an eligible account whose health score is maximal, and
every eligible account at a smaller index scores strictly less (ties broken
by insertion order). -/
theorem c7_select_best_spec (accounts : List TwitterAccount) (now : ℚ) :
    (select_best_account accounts now = none →
        ∀ i a, accounts.get? i = some a → eligible a = false) ∧
    (∀ i, select_best_account accounts now = some i →
        ∃ a, accounts.get? i = some a ∧ a.is_active = true ∧ a.is_banned = false ∧
          (∀ j b, accounts.get? j = some b → b.is_active = true → b.is_banned = false →
              b.health_score now ≤ a.health_score now) ∧
          (∀ j b, j < i → accounts.get? j = some b → b.is_active = true →
              b.is_banned = false → b.health_score now < a.health_score now)) := by
  constructor
  · intro h i a ha
    have hel : eligibleIndices accounts = [] := argmaxFirst_none _ _ h
    cases hb : eligible a with
    | false => rfl
    | true =>
        exfalso
        have hmem : i ∈ eligibleIndices accounts :=
          (mem_eligibleIndices accounts i).mpr ⟨a, ha, hb⟩
        rw [hel] at hmem
        exact absurd hmem (List.not_mem_nil i)
  · intro i h
    rcases argmaxFirst_spec _ (eligibleIndices accounts) i h with ⟨l₁, l₂, heq, hlt, hle⟩
    have hmem : i ∈ eligibleIndices accounts := by
      rw [heq]; exact List.mem_append_right _ (List.mem_cons_self _ _)
    rcases (mem_eligibleIndices accounts i).mp hmem with ⟨a, ha, he⟩
    have hact : a.is_active = true ∧ a.is_banned = false := by
      unfold eligible at he
      constructor
      · exact (Bool.and_eq_true _ _ ▸ he).1
      · have := (Bool.and_eq_true _ _ ▸ he).2
        simpa using this
    have hfi : scoreAt accounts now i = a.health_score now := scoreAt_eq accounts now i a ha
    refine ⟨a, ha, hact.1, hact.2, ?_, ?_⟩
    · intro j b hb hbact hbban
      have hbel : eligible b = true := by simp [eligible, hbact, hbban]
      have hjmem : j ∈ eligibleIndices accounts :=
        (mem_eligibleIndices accounts j).mpr ⟨b, hb, hbel⟩
      have hj := hle j hjmem
      rw [scoreAt_eq accounts now j b hb, hfi] at hj
      exact hj
    · intro j b hj hb hbact hbban
      have hbel : eligible b = true := by simp [eligible, hbact, hbban]
      have hjmem : j ∈ eligibleIndices accounts :=
        (mem_eligibleIndices accounts j).mpr ⟨b, hb, hbel⟩
      have hpw : (eligibleIndices accounts).Pairwise (· < ·) :=
        eligibleIndicesFrom_pairwise accounts 0
      rw [heq] at hpw hjmem
      have hj1 : j ∈ l₁ := by
        rcases List.mem_append.mp hjmem with h1 | h2
        · exact h1
        · rcases List.mem_cons.mp h2 with h3 | h4
          · omega
          · exfalso
            have hpw2 := (List.pairwise_append.mp hpw).2.1
            have := (List.pairwise_cons.mp hpw2).1 j h4
            omega
      have hjlt := hlt j hj1
      rw [scoreAt_eq accounts now j b hb, hfi] at hjlt
      exact hjlt

theorem c7_witness :
    select_best_account demoAccounts 0 = some 1 ∧
    usedAccount.health_score 0 ≤ sampleAccount.health_score 0 := by
  have hsel : select_best_account demoAccounts 0 = some 1 := by
    with_unfolding_all decide
  obtain ⟨a, ha, _, _, hmax, _⟩ := (c7_select_best_spec demoAccounts 0).2 1 hsel
  have hax : a = sampleAccount := by
    have hd : demoAccounts.get? 1 = some sampleAccount := rfl
    rw [hd] at ha
    exact (Option.some.inj ha).symm
  have hle := hmax 0 usedAccount rfl rfl rfl
  rw [hax] at hle
  exact ⟨hsel, hle⟩

theorem switch_to_grok_monitor (env : Env) (s : SystemState) (reason : String) :
    (switch_to_grok env s reason).1.monitor = s.monitor := by
  unfold switch_to_grok
  split
  · rfl
  · split <;> rfl

theorem on_health_alert_monitor (env : Env) (s : SystemState) (a : HealthAlert) :
    (on_health_alert env s a).1.monitor = s.monitor := by
  unfold on_health_alert
  cases a with
  | critical_failure et em =>
      simp only []
      exact switch_to_grok_monitor env s _
  | status_change o n =>
      by_cases h1 : n = HealthStatus.failing
      · simp only [h1, reduceIte]
        split <;> rfl
      · by_cases h2 : n = HealthStatus.failed
        · simp only [h1, h2, reduceIte]
          exact switch_to_grok_monitor env s _
        · simp only [h1, h2, reduceIte]

theorem deliver_foldl_monitor (env : Env) (alerts : List HealthAlert) :
    ∀ (acc : SystemState × List ClientAlert × Nat),
      (alerts.foldl
        (fun acc a =>
          let r := on_health_alert env acc.1 a
          (r.1, acc.2.1 ++ r.2.1, acc.2.2 + r.2.2))
        acc).1.monitor = acc.1.monitor := by
  induction alerts with
  | nil => intro acc; rfl
  | cons a rest ih =>
      intro acc
      simp only [List.foldl_cons]
      rw [ih]
      exact on_health_alert_monitor env acc.1 a

theorem deliver_health_alerts_monitor (env : Env) (s : SystemState)
    (alerts : List HealthAlert) :
    (deliver_health_alerts env s alerts).1.monitor = s.monitor := by
  unfold deliver_health_alerts
  exact deliver_foldl_monitor env alerts (s, [], 0)

theorem updateStatus_metrics (m : TwitterHealthMonitor) :
    (updateStatus m).1.metrics = m.metrics := by
  unfold updateStatus
  split
  · rfl
  · rfl

theorem record_success_metrics (m : TwitterHealthMonitor) (now rt : ℚ) :
    (record_success m now rt).1.metrics.failed_requests = m.metrics.failed_requests ∧
    (record_success m now rt).1.metrics.successful_requests =
      m.metrics.successful_requests + 1 ∧
    (record_success m now rt).1.metrics.failure_reasons = m.metrics.failure_reasons := by
  unfold record_success
  simp only [updateStatus_metrics]
  exact ⟨rfl, rfl, rfl⟩

theorem gatherTweets_foldl_fail (env : Env) (c : Nat) (tf : Nat) :
    ∀ (queries : List String) (acc : List Tweet),
      (∀ q ∈ queries, ∃ e, env.twikitSearch c q = .error e) →
      queries.foldl
        (fun all_tweets query =>
          match env.twikitSearch c query with
          | .ok tweets =>
              let cutoff_time := env.now - (tf : ℚ)
              all_tweets ++ tweets.filter (fun t =>
                match t.created_at with
                | some ts => decide (cutoff_time < ts)
                | none => false)
          | .error _ => all_tweets)
        acc = acc := by
  intro queries
  induction queries with
  | nil => intro acc _; rfl
  | cons q rest ih =>
      intro acc hfail
      rcases hfail q (List.mem_cons_self q rest) with ⟨e, he⟩
      simp only [List.foldl_cons, he]
      exact ih acc (fun q2 hq2 => hfail q2 (List.mem_cons_of_mem q hq2))

theorem gatherTweets_all_fail (env : Env) (c : Nat) (queries : List String) (tf : Nat)
    (hfail : ∀ q ∈ queries, ∃ e, env.twikitSearch c q = .error e) :
    gatherTweets env c queries tf = [] := by
  unfold gatherTweets
  exact gatherTweets_foldl_fail env c tf queries [] hfail

/-- C8 counterexample: a transient network error (`TimeoutError`, plainly not
a parse/format issue) raised by the provider while executing the request on
the primary path is silently swallowed: the call returns the empty `twikit`
result as a success, no failure is recorded in the health monitor
(`failed_requests` stays 0, `failure_reasons` stays empty) and nothing is
propagated. -/
theorem c8_counterexample_timeout_swallowed :
    (search_token envTimeout 2 stPrimary ["q"] 15).result =
        .ok { analyze_tweets [] with source := "twikit" } ∧
    (search_token envTimeout 2 stPrimary ["q"] 15).state.monitor.metrics.failed_requests = 0 ∧
    (search_token envTimeout 2 stPrimary ["q"] 15).state.monitor.metrics.failure_reasons = [] ∧
    (search_token envTimeout 2 stPrimary ["q"] 15).state.monitor.metrics.successful_requests = 1 := by
  with_unfolding_all exact ⟨rfl, rfl, rfl, rfl⟩

/-- C8 (amended): on the primary scraping path, provider errors raised inside
the per-query loop — of any kind, not only parse/format issues — are caught
and only logged: they are neither recorded in the HealthMonitor nor
propagated to the caller.  When every query fails the request degrades to the
explicit empty/neutral analysis result (marked `source = "twikit"`) and is
recorded as a success; only errors raised outside the loop (pool exhaustion)
reach the failure-recording path. -/
theorem c8_per_query_errors_swallowed (env : Env) (s : SystemState)
    (queries : List String) (tf fuel : Nat) (i c : Nat) (a : TwitterAccount)
    (hgrok : s.use_grok = false)
    (hcache : cacheGet s.cache (cache_key queries tf) env.now = none)
    (hcur : s.pool.current_account = some i)
    (hacc : s.pool.accounts.get? i = some a)
    (hclient : a.client = some c)
    (hfail : ∀ q ∈ queries, ∃ e, env.twikitSearch c q = .error e) :
    (search_token env (fuel + 1) s queries tf).result =
        .ok { analyze_tweets [] with source := "twikit" } ∧
    (search_token env (fuel + 1) s queries tf).state.monitor.metrics.failed_requests =
        s.monitor.metrics.failed_requests ∧
    (search_token env (fuel + 1) s queries tf).state.monitor.metrics.failure_reasons =
        s.monitor.metrics.failure_reasons ∧
    (search_token env (fuel + 1) s queries tf).state.monitor.metrics.successful_requests =
        s.monitor.metrics.successful_requests + 1 := by
  have hgc : get_current_client s.pool env.now =
      (({ accounts := s.pool.accounts.set i (a.mark_used env.now),
          current_account := some i } : AccountPool),
       some a.client) := by
    unfold get_current_client
    rw [hcur]
    simp only [hacc]
  have hgather : gatherTweets env c queries tf = [] :=
    gatherTweets_all_fail env c queries tf hfail
  have hrun : run_provider env s queries tf =
      ({ s with pool :=
          { accounts := s.pool.accounts.set i (a.mark_used env.now),
            current_account := some i } },
       .ok { analyze_tweets [] with source := "twikit" }) := by
    unfold run_provider
    simp only [hgrok, Bool.false_eq_true, reduceIte, hgc, hclient, hgather]
  simp only [search_token, hcache, hrun]
  refine ⟨?_, ?_, ?_, ?_⟩
  · trivial
  · rw [deliver_health_alerts_monitor]
    exact (record_success_metrics s.monitor env.now env.elapsed).1
  · rw [deliver_health_alerts_monitor]
    exact (record_success_metrics s.monitor env.now env.elapsed).2.2
  · rw [deliver_health_alerts_monitor]
    exact (record_success_metrics s.monitor env.now env.elapsed).2.1

theorem c8_witness :
    (search_token envTimeout 3 stPrimary ["q2"] 15).result =
      .ok { analyze_tweets [] with source := "twikit" } :=
  (c8_per_query_errors_swallowed envTimeout stPrimary ["q2"] 15 2 0 0 sampleAccount
    rfl rfl rfl rfl rfl
    (fun _q _ => ⟨{ name := "TimeoutError", msg := "Connection timed out" }, rfl⟩)).1

end AutoTrader
